import Mathlib

/-!
Shallow embedding of `src/server/backup_docker_configs.py` (repository
nightconcept/utils) and proofs about its backup-orchestration behaviour.

The script has two functions:
  * `rotate_backups(backup_dir, max_to_keep)` — lists files in the archive
    directory, keeps those matching the naming convention
    (`docker_configs_backup_*.zip`, regular files only), and when their number
    exceeds `max_to_keep` sorts them lexicographically and deletes the slice
    `backup_files[:-max_to_keep]`.
  * `backup_configs()` — iterates `os.listdir(SOURCE_CONFIG_DIR)`, copies each
    top-level directory into the staging area, and on a copy failure attempts
    a docker-compose stop / 10 s wait / retry copy / docker-compose start
    recovery sequence, accumulating `copied_count` / `error_count`; afterwards,
    if either counter is positive, it zips the staging tree, rotates old
    archives and removes the staging tree.

Fallible external operations (filesystem copies, `docker compose` invocations,
archive creation) are modelled by environment fields recording whether each
operation succeeds, and the observable actions of a run are recorded as an
event trace.
-/

namespace DockerBackup

/-! ## Model of `rotate_backups` (lines 34–68)

A directory listing entry: `os.listdir` yields names; the filter also tests
`os.path.isfile`, which we carry as a flag on the entry.

Filenames are modelled as their sequences of code points (`List Char`) —
exactly what Python's `str` comparison operators and `list.sort()` compare
lexicographically. -/

structure DirEntry where
  name : List Char
  isFile : Bool
deriving DecidableEq, Repr

/-- The filter on line 39–43: regular files whose name starts with
`docker_configs_backup_` and ends with `.zip` (Python `str.startswith` /
`str.endswith`). -/
def matchingBackups (listing : List DirEntry) : List (List Char) :=
  (listing.filter fun e =>
    e.isFile && "docker_configs_backup_".toList.isPrefixOf e.name &&
      ".zip".toList.isSuffixOf e.name).map
    (fun e => e.name)

/-- Python's slice `l[:-n]`: for `n = 0` this is `l[:0] = []`, otherwise the
first `length - n` elements. -/
def pySliceDropLastN (l : List (List Char)) (n : Nat) : List (List Char) :=
  if n = 0 then [] else l.take (l.length - n)

/-- The list of filenames `rotate_backups` deletes (lines 45–60): if at most
`maxToKeep` matching files exist it returns early deleting nothing; otherwise
it sorts the names lexicographically (Python `list.sort()` on `str`) and
deletes `backup_files[:-max_to_keep]`. Each per-file `os.remove` failure is
logged and skipped, so this list is the set of deletion attempts, each made
exactly once. -/
def rotateDeleted (listing : List DirEntry) (maxToKeep : Nat) : List (List Char) :=
  let files := matchingBackups listing
  if files.length ≤ maxToKeep then []
  else pySliceDropLastN (List.insertionSort (· ≤ ·) files) maxToKeep

/-- The matching filenames `rotate_backups` does not delete, read off the same
sorted list: the final `maxToKeep` entries (everything, when no rotation was
needed). -/
def rotateKept (listing : List DirEntry) (maxToKeep : Nat) : List (List Char) :=
  let files := matchingBackups listing
  if files.length ≤ maxToKeep then List.insertionSort (· ≤ ·) files
  else (List.insertionSort (· ≤ ·) files).drop (files.length - maxToKeep)

/-! ## Model of `backup_configs` (lines 71–233)

The per-entry loop body (lines 93–181) is driven by the outcomes of the
external operations it performs; those outcomes form the entry's
environment. The two exception classes caught around `shutil.copytree`
(`shutil.Error` — some individual files failed — and `OSError` — the
operation failed as a whole) correspond to the spec's PartialFailure and
FatalFailure; the handler on line 113 catches both alike. -/

/-- Which way a `shutil.copytree` call fails: `perFileFailure` is a
`shutil.Error` (spec: PartialFailure), `wholeTreeFailure` an `OSError`
(spec: FatalFailure). -/
inductive CopyErrKind where
  | perFileFailure
  | wholeTreeFailure
deriving DecidableEq, Repr

/-- Outcome of one `shutil.copytree` attempt (with its preceding
destination-clearing block, all inside the same `try`). -/
inductive CopyResult where
  | ok
  | err (kind : CopyErrKind)
deriving DecidableEq, Repr

/-- Environment of one top-level entry: the outcomes of the fallible external
operations the loop body may perform on it. `stopOk` covers every way
`docker compose stop` can fail (non-zero exit, command not found, any other
exception — lines 129–134 catch them all and leave `container_stopped`
false); `startOk` likewise, though the code only logs the start result. -/
structure ItemEnv where
  initialCopy : CopyResult
  dockerDirExists : Bool
  stopOk : Bool
  retryCopy : CopyResult
  startOk : Bool
deriving DecidableEq, Repr

/-- One entry of `os.listdir(SOURCE_CONFIG_DIR)`: its name, whether
`os.path.isdir` holds for it (line 97), and its environment. -/
structure Item where
  name : List Char
  isDir : Bool
  env : ItemEnv
deriving DecidableEq, Repr

/-- Observable actions of a run, in the order the code performs them.
`visit` marks a loop iteration, `attemptCopy` the initial copy attempt on a
directory entry (line 98), `stopSvc`/`startSvc` the `docker compose`
invocations (attempted, whether or not they succeed), `waitQuiesce` the
`time.sleep(10)`, `retryCopyEv` the retried copy, `makeArchiveAttempt` the
`shutil.make_archive` call, `rotateBackupsEv` the `rotate_backups` call and
`removeStaging` the `shutil.rmtree(BACKUP_DEST_DIR)` cleanup. -/
inductive Event where
  | visit (name : List Char)
  | attemptCopy (name : List Char)
  | stopSvc (name : List Char)
  | waitQuiesce (name : List Char)
  | retryCopyEv (name : List Char)
  | startSvc (name : List Char)
  | makeArchiveAttempt
  | rotateBackupsEv
  | removeStaging
deriving DecidableEq, Repr

/-- The loop body for one entry (lines 93–181): returns the increments to
`copied_count` and `error_count` and the entry's event trace.

Branches, exactly as in the source:
  * non-directory entries are skipped (line 180);
  * initial copy succeeds → `copied_count += 1` (line 112);
  * initial copy fails and the docker project directory exists:
    stop is attempted; only if it succeeded does the code sleep 10 s and
    retry the copy (lines 137–161), counting the retry's success or failure;
    restart is attempted in either case (line 163); when the stop failed,
    neither counter is touched;
  * initial copy fails and no docker project directory exists →
    `error_count += 1` (line 178). -/
def processItem (it : Item) : Nat × Nat × List Event :=
  if !it.isDir then (0, 0, [.visit it.name])
  else
    match it.env.initialCopy with
    | .ok => (1, 0, [.visit it.name, .attemptCopy it.name])
    | .err _ =>
      if it.env.dockerDirExists then
        if it.env.stopOk then
          match it.env.retryCopy with
          | .ok =>
            (1, 0, [.visit it.name, .attemptCopy it.name, .stopSvc it.name,
              .waitQuiesce it.name, .retryCopyEv it.name, .startSvc it.name])
          | .err _ =>
            (0, 1, [.visit it.name, .attemptCopy it.name, .stopSvc it.name,
              .waitQuiesce it.name, .retryCopyEv it.name, .startSvc it.name])
        else
          (0, 0, [.visit it.name, .attemptCopy it.name, .stopSvc it.name,
            .startSvc it.name])
      else (0, 1, [.visit it.name, .attemptCopy it.name])

/-- The whole `for` loop: counters accumulate, traces concatenate in
iteration order (the order `os.listdir` returned the names — the code never
sorts them). -/
def processAll (items : List Item) : Nat × Nat × List Event :=
  match items with
  | [] => (0, 0, [])
  | it :: rest =>
    let r := processItem it
    let rr := processAll rest
    (r.1 + rr.1, r.2.1 + rr.2.1, r.2.2 ++ rr.2.2)

/-- The zipping/rotation/cleanup stage and the full run (lines 188–229):
the stage runs exactly when `copied_count > 0 or error_count > 0`; inside
it, `shutil.make_archive` is attempted, and only if it succeeds are
`rotate_backups` called and the staging tree removed — the enclosing
`except` (line 226) skips both when archive creation raises. `archiveOk`
records whether `shutil.make_archive` succeeds. -/
def runBackup (items : List Item) (archiveOk : Bool) : Nat × Nat × List Event :=
  let r := processAll items
  if 0 < r.1 || 0 < r.2.1 then
    if archiveOk then
      (r.1, r.2.1, r.2.2 ++ [.makeArchiveAttempt, .rotateBackupsEv, .removeStaging])
    else
      (r.1, r.2.1, r.2.2 ++ [.makeArchiveAttempt])
  else r

/-- Number of top-level directories in the listing — the `N` of the run. -/
def dirCount (items : List Item) : Nat :=
  (items.filter fun it => it.isDir).length

/-- Names of the entries in the order the loop visited them, read off the
event trace. -/
def visitedNames (evs : List Event) : List (List Char) :=
  evs.filterMap fun e =>
    match e with
    | .visit n => some n
    | _ => none

/-! ## Model of the destination-clearing step (lines 100–110, 144–151)

What can occupy the destination path `dest_item_path` before a copy, and the
Python `os.path` predicates on it. `os.path.exists`, `os.path.isdir` and
`os.path.isfile` all follow symbolic links, so a symlink whose target does
not exist (a dangling link) makes all three return `False`, while the path
itself is still occupied at the `lstat` level. -/

inductive FsNode where
  | absent
  | file
  | dir
  | danglingLink
deriving DecidableEq, Repr

/-- `os.path.exists` — follows symlinks, so false on a dangling link. -/
def pathExists : FsNode → Bool
  | .file => true
  | .dir => true
  | _ => false

/-- `os.path.isdir` — follows symlinks. -/
def pathIsDir : FsNode → Bool
  | .dir => true
  | _ => false

/-- `os.path.isfile` — follows symlinks. -/
def pathIsFile : FsNode → Bool
  | .file => true
  | _ => false

/-- Whether the path is occupied at the `lstat` level (any directory entry,
including a dangling symlink). -/
def lstatOccupied : FsNode → Bool
  | .absent => false
  | _ => true

/-- The pre-copy removal block (lines 101–107): if `os.path.exists` then
remove it with `shutil.rmtree` when a directory, `os.remove` when a file;
anything that fails all three tests is left in place. -/
def clearDest (d : FsNode) : FsNode :=
  if pathExists d then
    if pathIsDir d then .absent
    else if pathIsFile d then .absent
    else d
  else d

/-- Outcome of `shutil.copytree(src, dest)` as a function of what occupies
`dest`: `copytree` begins with `os.makedirs(dest)` (with the default
`dirs_exist_ok=False`), whose `mkdir` fails with `FileExistsError`
(an `OSError`) whenever any directory entry — including a dangling
symlink — already exists at `dest`. -/
inductive CopyOutcome where
  | copied
  | errOSError
deriving DecidableEq, Repr

def copytreeAt (d : FsNode) : CopyOutcome :=
  if lstatOccupied d then .errOSError else .copied

/-- The destination-handling part of one backup attempt: clear the
destination (lines 101–107), then `shutil.copytree` into it (line 110). -/
def backupCopyStep (d : FsNode) : CopyOutcome :=
  copytreeAt (clearDest d)

/-! ## Helper lemmas about the run model -/

/-- Events emitted only by the zipping/rotation/cleanup stage. -/
def isZipEvent : Event → Bool
  | .makeArchiveAttempt => true
  | .rotateBackupsEv => true
  | .removeStaging => true
  | _ => false

theorem processItem_events_not_zip (it : Item) :
    ∀ e ∈ (processItem it).2.2, isZipEvent e = false := by
  intro e he
  obtain ⟨name, isDir, ic, dde, so, rc, sto⟩ := it
  cases isDir <;> cases ic <;> cases dde <;> cases so <;> cases rc <;>
    simp [processItem] at he <;>
    rcases he with rfl | he <;>
    first
      | rfl
      | (rcases he with rfl | he <;>
          first
            | rfl
            | (rcases he with rfl | he <;>
                first
                  | rfl
                  | (rcases he with rfl | he <;>
                      first
                        | rfl
                        | (rcases he with rfl | rfl <;> rfl))))

theorem processAll_events_not_zip (items : List Item) :
    ∀ e ∈ (processAll items).2.2, isZipEvent e = false := by
  induction items with
  | nil => intro e he; simp [processAll] at he
  | cons it rest ih =>
    intro e he
    simp only [processAll, List.mem_append] at he
    rcases he with h | h
    · exact processItem_events_not_zip it e h
    · exact ih e h

theorem visitedNames_processItem (it : Item) :
    visitedNames (processItem it).2.2 = [it.name] := by
  obtain ⟨name, isDir, ic, dde, so, rc, sto⟩ := it
  cases isDir <;> cases ic <;> cases dde <;> cases so <;> cases rc <;> rfl

theorem visitedNames_append (l₁ l₂ : List Event) :
    visitedNames (l₁ ++ l₂) = visitedNames l₁ ++ visitedNames l₂ :=
  List.filterMap_append l₁ l₂ _

theorem visitedNames_processAll (items : List Item) :
    visitedNames (processAll items).2.2 = items.map (fun it => it.name) := by
  induction items with
  | nil => rfl
  | cons it rest ih =>
    simp only [processAll, List.map_cons]
    rw [visitedNames_append, visitedNames_processItem, ih]
    rfl

/-! ## Claim theorems about `backup_configs` -/

/-- A single-entry source root whose directory fails its initial copy, has a
docker project directory, and whose `docker compose stop` fails. -/
def stopFailItem : Item :=
  { name := "app".toList, isDir := true,
    env := { initialCopy := .err .perFileFailure, dockerDirExists := true,
             stopOk := false, retryCopy := .ok, startOk := true } }

/-- C1: the claim says a run over N top-level directories accounts each
directory exactly once, `copied_count + error_count = N`. The code violates
this: for an entry whose initial copy fails, whose docker project directory
exists, and whose `docker compose stop` fails, the retry never runs and
neither counter is incremented (lines 129–134 leave `container_stopped`
false; the only `error_count += 1` sites are lines 161 and 178, neither
reached). Here N = 1 but `copied_count = error_count = 0`, even though the
entry was visited and its copy attempted — the loop did not abort. -/
theorem run_drops_stop_failure_entry_from_counters :
    dirCount [stopFailItem] = 1 ∧
    (runBackup [stopFailItem] true).1 = 0 ∧
    (runBackup [stopFailItem] true).2.1 = 0 ∧
    Event.attemptCopy "app".toList ∈ (runBackup [stopFailItem] true).2.2 := by
  refine ⟨rfl, rfl, rfl, ?_⟩
  decide

/-- A single-entry source root hitting the same uncounted path as
`stopFailItem` (copy fails, docker project directory exists, stop fails). -/
def stopFailItemB : Item :=
  { name := "db".toList, isDir := true,
    env := { initialCopy := .err .wholeTreeFailure, dockerDirExists := true,
             stopOk := false, retryCopy := .ok, startOk := true } }

/-- C2: the claim says an archive is created iff at least one top-level
directory was attempted. The code gates the zip step on
`copied_count > 0 or error_count > 0` (line 189), and an attempted entry
whose stop fails increments neither counter, so this run attempts one
directory (its copy is attempted, line 98) yet the zip stage never runs:
no `shutil.make_archive` call appears in the trace. -/
theorem run_skips_archive_despite_attempt :
    dirCount [stopFailItemB] = 1 ∧
    Event.attemptCopy "db".toList ∈ (runBackup [stopFailItemB] true).2.2 ∧
    Event.makeArchiveAttempt ∉ (runBackup [stopFailItemB] true).2.2 := by
  refine ⟨rfl, ?_, ?_⟩ <;> decide

/-- An entry whose initial copy fails with an `OSError` (the spec's
FatalFailure) and which has a docker project directory. -/
def fatalFailItem : Item :=
  { name := "media".toList, isDir := true,
    env := { initialCopy := .err .wholeTreeFailure, dockerDirExists := true,
             stopOk := true, retryCopy := .ok, startOk := true } }

/-- C3 counterexample: the claim says an initial copy failing with
FatalFailure goes directly to Failed with no service stop, no wait, no retry
and no start. The handler on line 113 catches `shutil.Error` and `OSError`
alike, so this entry — a whole-tree `OSError` failure — still gets the full
stop/wait/retry/start recovery sequence. -/
theorem fatal_failure_recovery_attempted :
    fatalFailItem.env.initialCopy = .err .wholeTreeFailure ∧
    Event.stopSvc "media".toList ∈ (processItem fatalFailItem).2.2 ∧
    Event.waitQuiesce "media".toList ∈ (processItem fatalFailItem).2.2 ∧
    Event.retryCopyEv "media".toList ∈ (processItem fatalFailItem).2.2 ∧
    Event.startSvc "media".toList ∈ (processItem fatalFailItem).2.2 := by
  refine ⟨rfl, ?_, ?_, ?_, ?_⟩ <;> decide

/-- C3 amended: the code does not distinguish FatalFailure from
PartialFailure — for every directory entry whose initial copy fails with
either error kind, recovery is skipped (no stop, wait, retry or start;
`error_count` incremented) exactly when no docker project directory exists
for the entry; when one exists, stop (and start) are attempted even for a
FatalFailure. -/
theorem copy_failure_recovery_iff_docker_dir (it : Item) (k : CopyErrKind)
    (hdir : it.isDir = true) (hfail : it.env.initialCopy = .err k) :
    (it.env.dockerDirExists = true →
      Event.stopSvc it.name ∈ (processItem it).2.2 ∧
      Event.startSvc it.name ∈ (processItem it).2.2) ∧
    (it.env.dockerDirExists = false →
      (processItem it).2.1 = 1 ∧
      (processItem it).2.2 = [.visit it.name, .attemptCopy it.name]) := by
  obtain ⟨name, isDir, ic, dde, so, rc, sto⟩ := it
  cases isDir <;> cases ic <;> cases dde <;> cases so <;> cases rc <;>
    simp_all [processItem]

/-- Witness for `copy_failure_recovery_iff_docker_dir` at a concrete entry. -/
theorem copy_failure_recovery_iff_docker_dir_witness :
    (fatalFailItem.env.dockerDirExists = true →
      Event.stopSvc fatalFailItem.name ∈ (processItem fatalFailItem).2.2 ∧
      Event.startSvc fatalFailItem.name ∈ (processItem fatalFailItem).2.2) ∧
    (fatalFailItem.env.dockerDirExists = false →
      (processItem fatalFailItem).2.1 = 1 ∧
      (processItem fatalFailItem).2.2 =
        [.visit fatalFailItem.name, .attemptCopy fatalFailItem.name]) :=
  copy_failure_recovery_iff_docker_dir fatalFailItem .wholeTreeFailure rfl rfl

/-- C4: for every directory entry whose initial copy fails and whose docker
project directory exists (so a stop is attempted), `docker compose up -d` is
always attempted afterward — after a failed stop, a failed retry and a
successful retry alike — and it is the entry's final action. -/
theorem start_always_attempted (it : Item) (k : CopyErrKind)
    (hdir : it.isDir = true) (hfail : it.env.initialCopy = .err k)
    (hdock : it.env.dockerDirExists = true) :
    Event.startSvc it.name ∈ (processItem it).2.2 ∧
    (processItem it).2.2.getLast? = some (.startSvc it.name) := by
  obtain ⟨name, isDir, ic, dde, so, rc, sto⟩ := it
  cases isDir <;> cases ic <;> cases dde <;> cases so <;> cases rc <;>
    simp_all [processItem]

/-- Witness for `start_always_attempted`: a failed stop still ends with a
start attempt. -/
theorem start_always_attempted_witness :
    Event.startSvc stopFailItem.name ∈ (processItem stopFailItem).2.2 ∧
    (processItem stopFailItem).2.2.getLast? =
      some (.startSvc stopFailItem.name) :=
  start_always_attempted stopFailItem .perFileFailure rfl rfl rfl

/-- C7: for every directory entry whose initial copy fails and whose docker
project directory exists, the 10-second quiescence wait and the retry copy
occur iff the stop succeeded; on a failed stop neither happens, but the
start is still attempted. -/
theorem wait_and_retry_iff_stop_succeeded (it : Item) (k : CopyErrKind)
    (hdir : it.isDir = true) (hfail : it.env.initialCopy = .err k)
    (hdock : it.env.dockerDirExists = true) :
    (Event.waitQuiesce it.name ∈ (processItem it).2.2 ↔ it.env.stopOk = true) ∧
    (Event.retryCopyEv it.name ∈ (processItem it).2.2 ↔ it.env.stopOk = true) ∧
    (it.env.stopOk = false → Event.startSvc it.name ∈ (processItem it).2.2) := by
  obtain ⟨name, isDir, ic, dde, so, rc, sto⟩ := it
  cases isDir <;> cases ic <;> cases dde <;> cases so <;> cases rc <;>
    simp_all [processItem]

/-- Witness for `wait_and_retry_iff_stop_succeeded` at a concrete entry with
a failed stop. -/
theorem wait_and_retry_iff_stop_succeeded_witness :
    (Event.waitQuiesce stopFailItemB.name ∈ (processItem stopFailItemB).2.2 ↔
      stopFailItemB.env.stopOk = true) ∧
    (Event.retryCopyEv stopFailItemB.name ∈ (processItem stopFailItemB).2.2 ↔
      stopFailItemB.env.stopOk = true) ∧
    (stopFailItemB.env.stopOk = false →
      Event.startSvc stopFailItemB.name ∈ (processItem stopFailItemB).2.2) :=
  wait_and_retry_iff_stop_succeeded stopFailItemB .wholeTreeFailure rfl rfl rfl

/-- A benign environment: every operation succeeds. -/
def benignEnv : ItemEnv :=
  { initialCopy := .ok, dockerDirExists := true, stopOk := true,
    retryCopy := .ok, startOk := true }

/-- A listing that `os.listdir` returns out of name order. -/
def unsortedItems : List Item :=
  [{ name := "b".toList, isDir := true, env := benignEnv },
   { name := "a".toList, isDir := true, env := benignEnv }]

/-- C6 counterexample: the claim says entries are processed in order sorted
by name. The loop on line 93 iterates `os.listdir` directly without
sorting, so a listing returned as `["b", "a"]` is processed as
`["b", "a"]`, not in the sorted order `["a", "b"]`. -/
theorem run_order_not_sorted :
    visitedNames (runBackup unsortedItems true).2.2 = ["b".toList, "a".toList] ∧
    List.insertionSort (· ≤ ·) ["b".toList, "a".toList] = ["a".toList, "b".toList] ∧
    (["b".toList, "a".toList] : List (List Char)) ≠ ["a".toList, "b".toList] := by
  refine ⟨rfl, ?_, ?_⟩ <;> decide

/-- C6 amended: the run processes the top-level entries in the order the
directory listing returns them — deterministic only up to `os.listdir`
order; the code performs no sort by name. -/
theorem run_visits_in_listing_order (items : List Item) (archiveOk : Bool) :
    visitedNames (runBackup items archiveOk).2.2 =
      items.map (fun it => it.name) := by
  unfold runBackup
  dsimp only
  split
  · cases archiveOk <;>
      simp only [Bool.false_eq_true, if_true, if_false, ite_true, ite_false] <;>
      rw [visitedNames_append, visitedNames_processAll] <;>
      simp [visitedNames]
  · exact visitedNames_processAll items

/-- C8: for every run that enters the zipping stage (some counter positive),
if `shutil.make_archive` succeeds then `rotate_backups` is called and the
staging tree is removed; if it raises, the `except` on line 226 is taken
before either, so rotation is skipped and the staging tree is left in
place (only the archive attempt itself appears in the trace). -/
theorem archive_outcome_controls_cleanup (items : List Item)
    (archiveOk : Bool)
    (h : 0 < (processAll items).1 ∨ 0 < (processAll items).2.1) :
    (archiveOk = true →
      Event.rotateBackupsEv ∈ (runBackup items archiveOk).2.2 ∧
      Event.removeStaging ∈ (runBackup items archiveOk).2.2) ∧
    (archiveOk = false →
      Event.makeArchiveAttempt ∈ (runBackup items archiveOk).2.2 ∧
      Event.rotateBackupsEv ∉ (runBackup items archiveOk).2.2 ∧
      Event.removeStaging ∉ (runBackup items archiveOk).2.2) := by
  have hcond : (0 < (processAll items).1 || 0 < (processAll items).2.1) = true := by
    rcases h with h | h <;> simp [h]
  constructor
  · rintro rfl
    unfold runBackup
    rw [if_pos hcond, if_pos rfl]
    constructor <;> simp
  · rintro rfl
    unfold runBackup
    rw [if_pos hcond, if_neg (by simp)]
    refine ⟨by simp, ?_, ?_⟩ <;>
      · intro hmem
        rcases List.mem_append.mp hmem with hin | hin
        · have := processAll_events_not_zip items _ hin
          simp [isZipEvent] at this
        · simp at hin

/-- Witness for `archive_outcome_controls_cleanup` on a one-entry run. -/
theorem archive_outcome_controls_cleanup_witness :
    (0 < (processAll [{ name := "a".toList, isDir := true, env := benignEnv }]).1 ∨
      0 < (processAll [{ name := "a".toList, isDir := true, env := benignEnv }]).2.1) ∧
    ((true = true →
      Event.rotateBackupsEv ∈
        (runBackup [{ name := "a".toList, isDir := true, env := benignEnv }] true).2.2 ∧
      Event.removeStaging ∈
        (runBackup [{ name := "a".toList, isDir := true, env := benignEnv }] true).2.2) ∧
    (true = false →
      Event.makeArchiveAttempt ∈
        (runBackup [{ name := "a".toList, isDir := true, env := benignEnv }] true).2.2 ∧
      Event.rotateBackupsEv ∉
        (runBackup [{ name := "a".toList, isDir := true, env := benignEnv }] true).2.2 ∧
      Event.removeStaging ∉
        (runBackup [{ name := "a".toList, isDir := true, env := benignEnv }] true).2.2)) :=
  ⟨Or.inl (by decide),
    archive_outcome_controls_cleanup _ true (Or.inl (by decide))⟩

/-! ## Claim theorems about `rotate_backups` -/

/-- C5 amended (`maxToKeep ≥ 1`): `rotate_backups` deletes exactly the
matching archive filenames that are not among the `maxToKeep`
lexicographically greatest — when at most `maxToKeep` match it deletes
nothing (early return, no failure); otherwise the deleted and kept lists
split the lexicographically sorted matching names, the deleted part has
length `count - maxToKeep`, the kept part length `maxToKeep`, every deleted
name is ≤ every kept name, and together they are a permutation of the
matching names. (For `maxToKeep = 0` the claim fails — see
`rotate_keep_zero_deletes_nothing`.) -/
theorem rotate_deletes_all_but_keep_greatest (listing : List DirEntry) (k : Nat)
    (hk : 1 ≤ k) :
    ((matchingBackups listing).length ≤ k → rotateDeleted listing k = []) ∧
    (k < (matchingBackups listing).length →
      rotateDeleted listing k ++ rotateKept listing k =
        List.insertionSort (· ≤ ·) (matchingBackups listing) ∧
      List.Perm (rotateDeleted listing k ++ rotateKept listing k)
        (matchingBackups listing) ∧
      (rotateDeleted listing k).length = (matchingBackups listing).length - k ∧
      (rotateKept listing k).length = k ∧
      ∀ x ∈ rotateDeleted listing k, ∀ y ∈ rotateKept listing k, x ≤ y) := by
  constructor
  · intro h
    simp [rotateDeleted, h]
  · intro h
    have hn : ¬ (matchingBackups listing).length ≤ k := not_le.mpr h
    have hk0 : ¬ k = 0 := by omega
    have hslen : (List.insertionSort (· ≤ ·) (matchingBackups listing)).length
        = (matchingBackups listing).length :=
      (List.perm_insertionSort _ _).length_eq
    have hdel : rotateDeleted listing k =
        (List.insertionSort (· ≤ ·) (matchingBackups listing)).take
          ((matchingBackups listing).length - k) := by
      simp [rotateDeleted, pySliceDropLastN, hn, hk0, hslen]
    have hkept : rotateKept listing k =
        (List.insertionSort (· ≤ ·) (matchingBackups listing)).drop
          ((matchingBackups listing).length - k) := by
      simp [rotateKept, hn]
    have hsplit : rotateDeleted listing k ++ rotateKept listing k =
        List.insertionSort (· ≤ ·) (matchingBackups listing) := by
      rw [hdel, hkept]; exact List.take_append_drop _ _
    refine ⟨hsplit, ?_, ?_, ?_, ?_⟩
    · rw [hsplit]; exact List.perm_insertionSort _ _
    · rw [hdel, List.length_take, hslen]; omega
    · rw [hkept, List.length_drop, hslen]; omega
    · intro x hx y hy
      have hsorted : List.Sorted (· ≤ ·)
          (List.insertionSort (· ≤ ·) (matchingBackups listing)) :=
        List.sorted_insertionSort _ _
      rw [← hsplit] at hsorted
      exact (List.pairwise_append.mp hsorted).2.2 x hx y hy

/-- An archive directory holding ten matching archives, listed out of
order. -/
def tenArchiveListing : List DirEntry :=
  [{ name := "docker_configs_backup_2025-09-04_00-00-00.zip".toList, isFile := true },
   { name := "docker_configs_backup_2025-09-10_00-00-00.zip".toList, isFile := true },
   { name := "docker_configs_backup_2025-09-01_00-00-00.zip".toList, isFile := true },
   { name := "docker_configs_backup_2025-09-07_00-00-00.zip".toList, isFile := true },
   { name := "docker_configs_backup_2025-09-02_00-00-00.zip".toList, isFile := true },
   { name := "docker_configs_backup_2025-09-08_00-00-00.zip".toList, isFile := true },
   { name := "docker_configs_backup_2025-09-03_00-00-00.zip".toList, isFile := true },
   { name := "docker_configs_backup_2025-09-09_00-00-00.zip".toList, isFile := true },
   { name := "docker_configs_backup_2025-09-05_00-00-00.zip".toList, isFile := true },
   { name := "docker_configs_backup_2025-09-06_00-00-00.zip".toList, isFile := true }]

/-- Witness for `rotate_deletes_all_but_keep_greatest`: with `maxToKeep = 7`
over the ten archives above, exactly the three lexicographically smallest
names are deleted. -/
theorem rotate_deletes_all_but_keep_greatest_witness :
    rotateDeleted tenArchiveListing 7 =
      ["docker_configs_backup_2025-09-01_00-00-00.zip".toList,
       "docker_configs_backup_2025-09-02_00-00-00.zip".toList,
       "docker_configs_backup_2025-09-03_00-00-00.zip".toList] ∧
    (((matchingBackups tenArchiveListing).length ≤ 7 →
        rotateDeleted tenArchiveListing 7 = []) ∧
      (7 < (matchingBackups tenArchiveListing).length →
        rotateDeleted tenArchiveListing 7 ++ rotateKept tenArchiveListing 7 =
          List.insertionSort (· ≤ ·) (matchingBackups tenArchiveListing) ∧
        List.Perm (rotateDeleted tenArchiveListing 7 ++ rotateKept tenArchiveListing 7)
          (matchingBackups tenArchiveListing) ∧
        (rotateDeleted tenArchiveListing 7).length =
          (matchingBackups tenArchiveListing).length - 7 ∧
        (rotateKept tenArchiveListing 7).length = 7 ∧
        ∀ x ∈ rotateDeleted tenArchiveListing 7,
          ∀ y ∈ rotateKept tenArchiveListing 7, x ≤ y)) :=
  ⟨by decide, rotate_deletes_all_but_keep_greatest tenArchiveListing 7 (by decide)⟩

/-- An archive directory holding a single matching archive. -/
def singleArchiveListing : List DirEntry :=
  [{ name := "docker_configs_backup_2025-09-01_00-00-00.zip".toList,
     isFile := true }]

/-- C5 counterexample at `maxToKeep = 0`: the claim quantifies over every
`keepCount` and requires deleting all matching archives not among the
`keepCount` greatest — for `keepCount = 0`, all of them. But the code's
slice `backup_files[:-0]` is empty, so with one matching archive and
`max_to_keep = 0` nothing is deleted. -/
theorem rotate_keep_zero_deletes_nothing :
    matchingBackups singleArchiveListing =
      ["docker_configs_backup_2025-09-01_00-00-00.zip".toList] ∧
    ¬ (matchingBackups singleArchiveListing).length ≤ 0 ∧
    rotateDeleted singleArchiveListing 0 = [] := by
  refine ⟨?_, ?_, ?_⟩ <;> decide

/-- C10: for every `maxToKeep ≥ 1`, if the current run's archive name is in
the listing and lexicographically ≥ every other matching archive name
(directory listings hold no duplicate names), then the rotation performed in
the same run never deletes it: the deleted slice keeps the final
`maxToKeep` sorted names, and the current archive sorts last. -/
theorem rotation_never_deletes_newest (listing : List DirEntry) (k : Nat)
    (curr : List Char) (hk : 1 ≤ k)
    (hmem : curr ∈ matchingBackups listing)
    (hnd : (matchingBackups listing).Nodup)
    (hmax : ∀ y ∈ matchingBackups listing, y ≤ curr) :
    curr ∉ rotateDeleted listing k := by
  intro hcur
  by_cases hle : (matchingBackups listing).length ≤ k
  · simp [rotateDeleted, hle] at hcur
  · have hn : k < (matchingBackups listing).length := not_le.mp hle
    have hk0 : ¬ k = 0 := by omega
    have hperm : List.Perm (List.insertionSort (· ≤ ·) (matchingBackups listing))
        (matchingBackups listing) := List.perm_insertionSort _ _
    have hslen : (List.insertionSort (· ≤ ·) (matchingBackups listing)).length
        = (matchingBackups listing).length := hperm.length_eq
    have hdel : rotateDeleted listing k =
        (List.insertionSort (· ≤ ·) (matchingBackups listing)).take
          ((matchingBackups listing).length - k) := by
      simp [rotateDeleted, pySliceDropLastN, hle, hk0, hslen]
    rw [hdel] at hcur
    have hsplit : (List.insertionSort (· ≤ ·) (matchingBackups listing)).take
          ((matchingBackups listing).length - k) ++
        (List.insertionSort (· ≤ ·) (matchingBackups listing)).drop
          ((matchingBackups listing).length - k) =
        List.insertionSort (· ≤ ·) (matchingBackups listing) :=
      List.take_append_drop _ _
    have hdropne : (List.insertionSort (· ≤ ·) (matchingBackups listing)).drop
        ((matchingBackups listing).length - k) ≠ [] := by
      intro hnil
      have hl := congrArg List.length hnil
      rw [List.length_drop, hslen] at hl
      simp at hl
      omega
    obtain ⟨y, hy⟩ := List.exists_mem_of_ne_nil _ hdropne
    have hys : y ∈ List.insertionSort (· ≤ ·) (matchingBackups listing) := by
      rw [← hsplit]; exact List.mem_append_right _ hy
    have hym : y ∈ matchingBackups listing := hperm.mem_iff.mp hys
    have hsorted : List.Sorted (· ≤ ·)
        (List.insertionSort (· ≤ ·) (matchingBackups listing)) :=
      List.sorted_insertionSort _ _
    rw [← hsplit] at hsorted
    have hcy : curr ≤ y := (List.pairwise_append.mp hsorted).2.2 curr hcur y hy
    have hyc : y ≤ curr := hmax y hym
    have heq : y = curr := le_antisymm hyc hcy
    have hnds : (List.insertionSort (· ≤ ·) (matchingBackups listing)).Nodup :=
      hperm.nodup_iff.mpr hnd
    rw [← hsplit] at hnds
    exact List.disjoint_of_nodup_append hnds hcur (heq ▸ hy)

set_option maxRecDepth 8192 in
/-- Witness for `rotation_never_deletes_newest`: the newest of the ten
archives survives rotation with `maxToKeep = 7`. -/
theorem rotation_never_deletes_newest_witness :
    "docker_configs_backup_2025-09-10_00-00-00.zip".toList ∉
      rotateDeleted tenArchiveListing 7 :=
  rotation_never_deletes_newest tenArchiveListing 7
    "docker_configs_backup_2025-09-10_00-00-00.zip".toList
    (by decide) (by decide) (by decide) (by decide)

/-! ## Claim theorem about the destination-clearing step -/

/-- C9: a dangling symlink at the destination path defeats the pre-copy
removal: `os.path.exists`, `os.path.isdir` and `os.path.isfile` all follow
symlinks and report false for it, so the removal block leaves it in place,
and the subsequent `shutil.copytree` fails with an `OSError`
(`FileExistsError` from `os.makedirs`) instead of replacing the
destination — unlike a regular file or directory there, which is removed so
the copy succeeds. -/
theorem dangling_symlink_dest_not_replaced :
    pathExists .danglingLink = false ∧
    pathIsDir .danglingLink = false ∧
    pathIsFile .danglingLink = false ∧
    clearDest .danglingLink = .danglingLink ∧
    backupCopyStep .danglingLink = .errOSError ∧
    backupCopyStep .dir = .copied ∧
    backupCopyStep .file = .copied ∧
    backupCopyStep .absent = .copied := by
  refine ⟨rfl, rfl, rfl, ?_, ?_, ?_, ?_, ?_⟩ <;> decide

end DockerBackup
